import Mathlib

/-!
Shallow embedding of the Vault `Core` (src/vault/core.go) and proofs about
its request pipeline, seal state machine, HA coordinator and error handling.

External collaborators (router, token store, policy store, expiration
manager, audit broker, physical backend, shamir, barrier) are not part of
the source under verification; they appear as explicit environment records
of executable functions, so every Core function is a pure Lean function of
the Core state, the environment, and its arguments.
-/

namespace Vault

/-- Request operations (logical.Operation). -/
inductive Operation where
  | read
  | write
  | del
  | list
deriving Repr, DecidableEq

/-- Error values the Core distinguishes (the error variables and types at the
top of core.go, plus `logical` errors and `fmt.Errorf` results). -/
inductive VErr where
  | sealedErr
  | standbyErr
  | alreadyInit
  | notInit
  | internalError
  | haNotEnabled
  | invalidKey (reason : String)
  | permissionDenied
  | invalidRequest
  | other (msg : String)
deriving Repr, DecidableEq

/-- The message carried by each error (Go `err.Error()`). -/
def VErr.message : VErr → String
  | .sealedErr => "Vault is sealed"
  | .standbyErr => "Vault is in standby mode"
  | .alreadyInit => "Vault is already initialized"
  | .notInit => "Vault is not initialized"
  | .internalError => "internal error"
  | .haNotEnabled => "Vault is not configured for highly-available mode"
  | .invalidKey r => "invalid key: " ++ r
  | .permissionDenied => "permission denied"
  | .invalidRequest => "invalid request"
  | .other m => m

/-- A secret attached to a response (logical.Secret): lease duration and the
lease id assigned at registration. -/
structure Secret where
  lease : Nat
  leaseID : String
deriving Repr, DecidableEq

/-- An auth block attached to a response (logical.Auth). -/
structure Auth where
  clientToken : String
  policies : List String
  metadata : List (String × String)
  displayName : String
  lease : Nat
deriving Repr, DecidableEq

/-- A backend response (logical.Response). `errMsg` models the "error" entry
of the Data map as set by logical.ErrorResponse. -/
structure Response where
  secret : Option Secret
  auth : Option Auth
  errMsg : Option String
deriving Repr, DecidableEq

/-- logical.ErrorResponse: a response carrying only an error message. -/
def Response.errorResponse (msg : String) : Response :=
  { secret := none, auth := none, errMsg := some msg }

/-- An incoming request (logical.Request). -/
structure Request where
  operation : Operation
  path : String
  clientToken : String
  displayName : String
deriving Repr, DecidableEq

/-- A token entry (TokenEntry of the token store). -/
structure TokenEntry where
  id : String
  path : String
  policies : List String
  meta : List (String × String)
  displayName : String
deriving Repr, DecidableEq

/-- A compiled ACL (policy store): the two queries the Core makes of it. -/
structure ACL where
  rootPrivilege : String → Bool
  allowOperation : Operation → String → Bool

/-- The environment of external collaborators used by the request pipeline.
Each field is the executable behaviour of a component that is out of scope
(router, token store, policy store, audit broker, expiration manager).
Errors of these components are `Except String` values, as in Go. -/
structure Env where
  loginPath : String → Bool
  rootPath : String → Bool
  matchingMount : String → String
  lookup : String → Except String (Option TokenEntry)
  useToken : TokenEntry → Except String Unit
  aclFor : List String → Except String ACL
  route : Request → Option Response × Option VErr
  logRequest : Option Auth → Request → Except String Unit
  logResponse : Option Auth → Request → Option Response → Option VErr → Except String Unit
  registerLease : Request → Response → Except String String
  registerAuth : String → Auth → Except String Unit
  createToken : TokenEntry → Except String String
  defaultLeaseDuration : Nat
  maxLeaseDuration : Nat

/-- Core.checkToken: validates the client token and produces the synthesized
auth. An empty token yields the generic error "missing client token"; lookup,
UseToken and ACL-compilation failures are downgraded to the internal error;
a missing entry, a root path without root privilege, or a denied operation
yield permission denied. -/
def checkToken (env : Env) (op : Operation) (path : String) (token : String) :
    Except VErr Auth :=
  if token = "" then
    .error (.other "missing client token")
  else
    match env.lookup token with
    | .error _ => .error .internalError
    | .ok none => .error .permissionDenied
    | .ok (some te) =>
      match env.useToken te with
      | .error _ => .error .internalError
      | .ok _ =>
        match env.aclFor te.policies with
        | .error _ => .error .internalError
        | .ok acl =>
          if env.rootPath path && !(acl.rootPrivilege path) then
            .error .permissionDenied
          else if !(acl.allowOperation op path) then
            .error .permissionDenied
          else
            .ok { clientToken := token, policies := te.policies,
                  metadata := te.meta, displayName := te.displayName,
                  lease := 0 }

/-- Error classification in Core.handleRequest: internal error and permission
denied propagate as-is, anything else becomes invalid request. -/
def classifyErr (e : VErr) : VErr :=
  match e with
  | .internalError => .internalError
  | .permissionDenied => .permissionDenied
  | _ => .invalidRequest

/-- strings.HasPrefix, over the character lists of the strings. -/
def strStarts (s pre : String) : Bool := pre.toList.isPrefixOf s.toList

/-- The two lease adjustments applied to a secret in Core.handleRequest:
the default lease when none is given, then the clamp to the maximum. -/
def clampSecret (env : Env) (s : Secret) : Secret :=
  let s1 := if s.lease = 0 then { s with lease := env.defaultLeaseDuration } else s
  if s1.lease > env.maxLeaseDuration
  then { s1 with lease := env.maxLeaseDuration } else s1

/-- The two lease adjustments applied to an auth block: the default lease
when none is given and the policies do not contain root, then the clamp to
the maximum. -/
def clampAuth (env : Env) (a : Auth) : Auth :=
  let a1 := if a.lease = 0 && !(a.policies.contains "root")
            then { a with lease := env.defaultLeaseDuration } else a
  if a1.lease > env.maxLeaseDuration
  then { a1 with lease := env.maxLeaseDuration } else a1

/-- The secret block of Core.handleRequest: if the response carries a secret,
apply the default lease when none is given, clamp to the maximum, register
the lease with the expiration manager (internal error on failure) and attach
the returned lease id. -/
def processSecret (env : Env) (req : Request) (resp : Response) :
    Except VErr Response :=
  match resp.secret with
  | none => .ok resp
  | some s =>
    let s2 := clampSecret env s
    match env.registerLease req { resp with secret := some s2 } with
    | .error _ => .error .internalError
    | .ok leaseID => .ok { resp with secret := some { s2 with leaseID := leaseID } }

/-- The auth block of Core.handleRequest: an auth response is only legal under
auth/token/ (else internal error); the default lease is applied only when the
lease is zero and the policies do not contain root; the lease is clamped to
the maximum; the auth is registered with the expiration manager (internal
error on failure). -/
def processAuth (env : Env) (req : Request) (resp : Response) :
    Except VErr Response :=
  match resp.auth with
  | none => .ok resp
  | some a =>
    if !(strStarts req.path "auth/token/") then
      .error .internalError
    else
      let a2 := clampAuth env a
      match env.registerAuth req.path a2 with
      | .error _ => .error .internalError
      | .ok _ => .ok { resp with auth := some a2 }

/-- Core.handleRequest: the authenticated dispatch path. Token check (with
error classification and the message in the response body on failure), audit
of the request, routing, secret registration, auth registration, audit of the
response; the routed error is returned alongside the final response. -/
def handleRequest (env : Env) (req0 : Request) : Option Response × Option VErr :=
  match checkToken env req0.operation req0.path req0.clientToken with
  | .error cerr =>
    (some (Response.errorResponse cerr.message), some (classifyErr cerr))
  | .ok auth =>
    let req : Request := { req0 with displayName := auth.displayName }
    match env.logRequest (some auth) req with
    | .error _ => (none, some .internalError)
    | .ok _ =>
      let routed := env.route req
      match routed.1 with
      | none =>
        match env.logResponse (some auth) req none routed.2 with
        | .error _ => (none, some .internalError)
        | .ok _ => (none, routed.2)
      | some resp =>
        match processSecret env req resp with
        | .error e => (none, some e)
        | .ok resp1 =>
          match processAuth env req resp1 with
          | .error e => (none, some e)
          | .ok resp2 =>
            match env.logResponse (some auth) req (some resp2) routed.2 with
            | .error _ => (none, some .internalError)
            | .ok _ => (some resp2, routed.2)

/-- strings.TrimPrefix: drop `pre` from the front of `s` when present. -/
def trimPre (s pre : String) : String :=
  if strStarts s pre then (s.toList.drop pre.toList.length).asString else s

/-- strings.TrimSuffix: drop `suf` from the end of `s` when present. -/
def trimSuffix (s suf : String) : String :=
  if suf.toList.isSuffixOf s.toList
  then (s.toList.take (s.toList.length - suf.toList.length)).asString else s

/-- strings.Replace(s, "/", "-", -1) as called in handleLoginRequest: every
slash replaced by a dash. -/
def slashToDash (s : String) : String :=
  (s.toList.map (fun c => if c = '/' then '-' else c)).asString

/-- Core.handleLoginRequest: the unauthenticated dispatch path. Audit with no
auth, route; if the backend returned an auth block, derive the display name
from the credential mount (credentialRoutePrefix is "auth/"), create a token
entry, populate the client token, apply default/maximum lease rules (root
exempt from the default), register the auth, and audit the response. -/
def handleLoginRequest (env : Env) (req0 : Request) : Option Response × Option VErr :=
  match env.logRequest none req0 with
  | .error _ => (none, some .internalError)
  | .ok _ =>
    let routed := env.route req0
    match routed.1 with
    | none =>
      match env.logResponse none req0 none routed.2 with
      | .error _ => (none, some .internalError)
      | .ok _ => (none, routed.2)
    | some resp =>
      match resp.auth with
      | none =>
        match env.logResponse none req0 (some resp) routed.2 with
        | .error _ => (none, some .internalError)
        | .ok _ => (some resp, routed.2)
      | some a0 =>
        let source := env.matchingMount req0.path
        let source := trimPre source "auth/"
        let source := slashToDash source
        let a1 := { a0 with displayName := trimSuffix (source ++ a0.displayName) "-" }
        let te : TokenEntry :=
          { id := "", path := req0.path, policies := a1.policies,
            meta := a1.metadata, displayName := a1.displayName }
        match env.createToken te with
        | .error _ => (none, some .internalError)
        | .ok newId =>
          let a2 := { a1 with clientToken := newId }
          let a4 := clampAuth env a2
          match env.registerAuth req0.path a4 with
          | .error _ => (none, some .internalError)
          | .ok _ =>
            let req : Request := { req0 with displayName := a4.displayName }
            match env.logResponse (some a4) req (some { resp with auth := some a4 }) routed.2 with
            | .error _ => (none, some .internalError)
            | .ok _ => (some { resp with auth := some a4 }, routed.2)

/-- The mutable Core state guarded by the state lock, plus the barrier's
sealed flag (the barrier itself is out of scope; only whether the Core has
sealed or unsealed it matters here). -/
structure CoreState where
  sealed : Bool
  standby : Bool
  barrierSealed : Bool
  unlockParts : List (List Nat)
deriving Repr, DecidableEq

/-- Core.HandleRequest: fail with Sealed / Standby under the read lock,
otherwise dispatch to the login path or the authenticated path according to
router.LoginPath. -/
def HandleRequest (env : Env) (s : CoreState) (req : Request) :
    Option Response × Option VErr :=
  if s.sealed then (none, some .sealedErr)
  else if s.standby then (none, some .standbyErr)
  else if env.loginPath req.path then handleLoginRequest env req
  else handleRequest env req

/-- Core.SecretProgress: the number of unseal key parts provided so far. -/
def SecretProgress (s : CoreState) : Nat := s.unlockParts.length

/-- SealConfig: the Shamir parameters persisted at core/seal-config. -/
structure SealConfig where
  secretShares : Nat
  secretThreshold : Nat
deriving Repr, DecidableEq

/-- The environment of Core.Unseal: the barrier's advertised key-length range,
shamir.ShareOverhead, the result of reading the seal configuration, the
barrier's master key, shamir.Combine, whether an HA backend is configured, and
the outcome of postUnseal on the non-HA branch. -/
structure UnsealEnv where
  keyMin : Nat
  keyMax : Nat
  shareOverhead : Nat
  sealConfig : Except String (Option SealConfig)
  masterKey : List Nat
  combine : List (List Nat) → Except String (List Nat)
  haEnabled : Bool
  postUnsealResult : Option String

/-- Modelled from the spec: the security barrier's `Unseal(master_key)` is not
part of the source under verification (SecurityBarrier / AESGCMBarrier live
outside core.go); per the spec it "fails with InvalidKey on wrong key" and on
success transitions sealed to unsealed. -/
def barrierUnseal (e : UnsealEnv) (k : List Nat) : Option VErr :=
  if k = e.masterKey then none else some (.invalidKey "decryption failed")

/-- The tail of Core.Unseal once a candidate master key has been recovered:
attempt barrier.Unseal; on the non-HA branch leave standby, run postUnseal and
reseal the barrier on its failure (the Core stays sealed); on the HA branch
start the standby loop and report unsealed. -/
def unsealWith (e : UnsealEnv) (s : CoreState) (masterKey : List Nat) :
    CoreState × Bool × Option VErr :=
  match barrierUnseal e masterKey with
  | some err => (s, false, some err)
  | none =>
    let s1 := { s with barrierSealed := false }
    if !e.haEnabled then
      let s2 := { s1 with standby := false }
      match e.postUnsealResult with
      | some m => ({ s2 with barrierSealed := true }, false, some (.other m))
      | none => ({ s2 with sealed := false }, true, none)
    else
      ({ s1 with sealed := false }, true, none)

/-- Core.Unseal: validate the key length against the barrier's range plus the
shamir share overhead, read the seal configuration, ignore the call when
already unsealed, ignore a duplicate part, append the part; below the
threshold report progress only; at the threshold take the lone part (T = 1)
or combine the parts, clear the accepted parts, and attempt the unseal. -/
def Unseal (e : UnsealEnv) (s : CoreState) (key : List Nat) :
    CoreState × Bool × Option VErr :=
  if key.length < e.keyMin then
    (s, false, some (.invalidKey
      ("key is shorter than minimum " ++ toString e.keyMin ++ " bytes")))
  else if key.length > e.keyMax + e.shareOverhead then
    (s, false, some (.invalidKey
      ("key is longer than maximum " ++ toString (e.keyMax + e.shareOverhead) ++ " bytes")))
  else
    match e.sealConfig with
    | .error m => (s, false, some (.other m))
    | .ok none => (s, false, some .notInit)
    | .ok (some config) =>
      if !s.sealed then (s, true, none)
      else if s.unlockParts.contains key then (s, false, none)
      else
        let parts := s.unlockParts ++ [key]
        if parts.length < config.secretThreshold then
          ({ s with unlockParts := parts }, false, none)
        else if config.secretThreshold = 1 then
          unsealWith e { s with unlockParts := [] } parts.headI
        else
          match e.combine parts with
          | .error m =>
            ({ s with unlockParts := [] }, false,
              some (.other ("failed to compute master key: " ++ m)))
          | .ok masterKey => unsealWith e { s with unlockParts := [] } masterKey

/-- The environment of Core.Seal: whether HA is configured, and the outcomes
of preSeal and barrier.Seal. -/
structure SealEnv where
  haEnabled : Bool
  preSealResult : Option String
  barrierSealResult : Option String
deriving Repr

/-- Core.Seal: a no-op on an already-sealed core; otherwise the token must
pass checkToken as a write on sys/seal, the core is marked sealed, the non-HA
branch runs preSeal (its failure reported as the opaque "internal error"), the
HA branch stops the standby task, and finally the barrier is sealed. -/
def Seal (env : Env) (se : SealEnv) (s : CoreState) (token : String) :
    CoreState × Option VErr :=
  if s.sealed then (s, none)
  else
    match checkToken env .write "sys/seal" token with
    | .error e => (s, some e)
    | .ok _ =>
      let s1 := { s with sealed := true }
      if !se.haEnabled then
        match se.preSealResult with
        | some _ => (s1, some (.other "internal error"))
        | none =>
          match se.barrierSealResult with
          | some m => (s1, some (.other m))
          | none => ({ s1 with barrierSealed := true }, none)
      else
        match se.barrierSealResult with
        | some m => (s1, some (.other m))
        | none => ({ s1 with barrierSealed := true }, none)

/-- The environment of Core.postUnseal: the result of each setup step, in
bring-up order. -/
structure SetupEnv where
  loadMounts : Except String Unit
  setupMounts : Except String Unit
  startRollback : Except String Unit
  setupPolicyStore : Except String Unit
  loadCredentials : Except String Unit
  setupCredentials : Except String Unit
  setupExpiration : Except String Unit
  loadAudits : Except String Unit
  setupAudits : Except String Unit
deriving Repr

/-- Core.postUnseal, step for step from the source: purge the cache, then run
the setup steps in order. Failures of loadMounts, setupMounts, startRollback,
setupExpiration, loadAudits and setupAudits are returned; failures of
setupPolicyStore, loadCredentials and setupCredentials are discarded with an
early `return nil` (this is exactly what the source does). The result is
`none` for nil and `some msg` for an error. -/
def postUnseal (e : SetupEnv) : Option String :=
  match e.loadMounts with
  | .error err => some err
  | .ok _ =>
  match e.setupMounts with
  | .error err => some err
  | .ok _ =>
  match e.startRollback with
  | .error err => some err
  | .ok _ =>
  match e.setupPolicyStore with
  | .error _ => none
  | .ok _ =>
  match e.loadCredentials with
  | .error _ => none
  | .ok _ =>
  match e.setupCredentials with
  | .error _ => none
  | .ok _ =>
  match e.setupExpiration with
  | .error err => some err
  | .ok _ =>
  match e.loadAudits with
  | .error err => some err
  | .ok _ =>
  match e.setupAudits with
  | .error err => some err
  | .ok _ => none

/-- Observable steps of one iteration of Core.runStandby. -/
inductive StandbyEvent where
  | createdLock
  | acquiredLock
  | advertised
  | ranPostUnseal
  | clearedLeader
  | ranPreSeal
  | unlocked
deriving Repr, DecidableEq, BEq

/-- The environment of one runStandby iteration: whether lock creation and
acquisition succeed, whether leader advertisement succeeds, and the outcomes
of postUnseal, clearLeader and the two preSeal calls. -/
structure StandbyEnv where
  lockWithOk : Bool
  acquired : Bool
  advertiseOk : Bool
  postUnsealResult : Option String
  clearLeaderOk : Bool
  preSealResult1 : Option String
  preSealResult2 : Option String
deriving Repr

/-- One iteration of Core.runStandby, translated line by line into the trace
of steps it performs and the resulting Core state: create the lock (a failure
returns), acquire it (a nil leader channel returns), advertise (a failure
unlocks and continues), run postUnseal under the state lock (success clears
standby; failure unlocks and continues); then, once leadership is lost or
stop is signalled: clear the leader entry, set standby and run preSeal under
the state lock, release the lock, and run preSeal a second time (the source
calls `c.preSeal()` again in the final error check). -/
def runStandbyIteration (e : StandbyEnv) (s : CoreState) :
    List StandbyEvent × CoreState :=
  if !e.lockWithOk then ([.createdLock], s)
  else if !e.acquired then ([.createdLock], s)
  else if !e.advertiseOk then
    ([.createdLock, .acquiredLock, .unlocked], s)
  else
    match e.postUnsealResult with
    | some _ =>
      ([.createdLock, .acquiredLock, .advertised, .ranPostUnseal, .unlocked], s)
    | none =>
      let s1 := { s with standby := false }
      let s2 := { s1 with standby := true }
      ([.createdLock, .acquiredLock, .advertised, .ranPostUnseal,
        .clearedLeader, .ranPreSeal, .unlocked, .ranPreSeal], s2)

/-- The prefix under which the leader advertises its address
(coreLeaderPrefix in the source). -/
def coreLeaderPath : String := "core/leader/"

/-- The environment of Core.Leader: whether HA is configured, the advertise
address, the outcome of creating the advisory lock, the lock's
(held, value) reading, and reads through the barrier. -/
structure LeaderEnv where
  haEnabled : Bool
  advertiseAddr : String
  lockWith : Except String Unit
  lockValue : Except String (Bool × String)
  barrierGet : String → Except String (Option String)

/-- Core.Leader: HANotEnabled without an HA backend; Sealed when sealed; on
the active node (true, advertise address); on a standby node read the
advisory lock's value (the leader uuid), fetch coreLeaderPrefix+uuid from the
barrier, and return (false, advertised address), with (false, "") when the
lock is unheld or the entry is missing. -/
def Leader (e : LeaderEnv) (s : CoreState) : Bool × String × Option VErr :=
  if !e.haEnabled then (false, "", some .haNotEnabled)
  else if s.sealed then (false, "", some .sealedErr)
  else if !s.standby then (true, e.advertiseAddr, none)
  else
    match e.lockWith with
    | .error m => (false, "", some (.other m))
    | .ok _ =>
      match e.lockValue with
      | .error m => (false, "", some (.other m))
      | .ok (held, value) =>
        if !held then (false, "", none)
        else
          match e.barrierGet (coreLeaderPath ++ value) with
          | .error m => (false, "", some (.other m))
          | .ok none => (false, "", none)
          | .ok (some v) => (false, v, none)

/-! Concrete fixtures used to evaluate the definitions at specific inputs. -/

/-- An ACL granting everything. -/
def aclAll : ACL :=
  { rootPrivilege := fun _ => true, allowOperation := fun _ _ => true }

/-- A token entry for a developer token. -/
def te0 : TokenEntry :=
  { id := "t1", path := "auth/token/create", policies := ["dev"],
    meta := [], displayName := "dev" }

/-- A baseline environment: one known token "t1", a permissive ACL, audits
and registrations that succeed, and a router with no login paths that
routes every request to an empty response. -/
def env0 : Env :=
  { loginPath := fun _ => false
    rootPath := fun _ => false
    matchingMount := fun _ => "auth/github/"
    lookup := fun tok => if tok = "t1" then .ok (some te0) else .ok none
    useToken := fun _ => .ok ()
    aclFor := fun _ => .ok aclAll
    route := fun _ => (none, none)
    logRequest := fun _ _ => .ok ()
    logResponse := fun _ _ _ _ => .ok ()
    registerLease := fun _ _ => .ok "lease-1"
    registerAuth := fun _ _ => .ok ()
    createToken := fun _ => .ok "new-token"
    defaultLeaseDuration := 100
    maxLeaseDuration := 1000 }

/-- A read request with the known token. -/
def req0 : Request :=
  { operation := .read, path := "secret/foo", clientToken := "t1", displayName := "" }

/-- A request with an empty client token. -/
def reqEmptyTok : Request :=
  { operation := .read, path := "secret/foo", clientToken := "", displayName := "" }

/-- An unsealed, active core state. -/
def activeState : CoreState :=
  { sealed := false, standby := false, barrierSealed := false, unlockParts := [] }

/-- A sealed core state. -/
def sealedState : CoreState :=
  { sealed := true, standby := true, barrierSealed := true, unlockParts := [] }

/-! Claims. -/

/-- Claim C8: for every request, HandleRequest fails with the Sealed error
when the core is sealed and with the Standby error when the core is unsealed
but in standby mode, without routing the request (the result is independent
of the environment); otherwise it dispatches to the login path iff
router.LoginPath holds on the request path. -/
theorem C8_handle_request_gating (env : Env) (s : CoreState) (req : Request) :
    (s.sealed = true → HandleRequest env s req = (none, some .sealedErr)) ∧
    (s.sealed = false → s.standby = true →
      HandleRequest env s req = (none, some .standbyErr)) ∧
    (s.sealed = false → s.standby = false →
      HandleRequest env s req =
        if env.loginPath req.path then handleLoginRequest env req
        else handleRequest env req) := by
  refine ⟨fun hs => ?_, fun hs hb => ?_, fun hs hb => ?_⟩
  · simp [HandleRequest, hs]
  · simp [HandleRequest, hs, hb]
  · simp [HandleRequest, hs, hb]

/-- Witness for C8: a sealed core rejects a concrete request with Sealed. -/
theorem C8_handle_request_gating_witness :
    HandleRequest env0 sealedState req0 = (none, some .sealedErr) :=
  (C8_handle_request_gating env0 sealedState req0).1 rfl

/-- Claim C10: calling Seal on an already-sealed core returns nil immediately
for every token argument (including an empty or invalid one); the root-token
check and all teardown steps are skipped and the state is unchanged. -/
theorem C10_seal_on_sealed_noop (env : Env) (se : SealEnv) (s : CoreState)
    (token : String) (h : s.sealed = true) :
    Seal env se s token = (s, none) := by
  simp [Seal, h]

/-- Witness for C10: sealing a sealed core with the empty token is a no-op. -/
theorem C10_seal_on_sealed_noop_witness :
    Seal env0 { haEnabled := false, preSealResult := none, barrierSealResult := none }
      sealedState "" = (sealedState, none) :=
  C10_seal_on_sealed_noop env0 _ sealedState "" rfl

/-- Claim C2 counterexample: on an unsealed active core, a request with an
empty client token fails with InvalidRequest, not PermissionDenied as the
claim states (checkToken returns the generic "missing client token" error,
which the error classification maps to InvalidRequest). -/
theorem C2_empty_token_counterexample :
    (HandleRequest env0 activeState reqEmptyTok).2 = some .invalidRequest ∧
    some VErr.invalidRequest ≠ some VErr.permissionDenied := by
  exact ⟨rfl, by decide⟩

/-- Claim C2 (amended): for every request on the authenticated path whose
client token is the empty string, HandleRequest fails with InvalidRequest and
the response body carries the message "missing client token". -/
theorem C2_empty_token_invalid_request (env : Env) (s : CoreState)
    (req : Request) (hs : s.sealed = false) (hb : s.standby = false)
    (hl : env.loginPath req.path = false) (ht : req.clientToken = "") :
    HandleRequest env s req =
      (some (Response.errorResponse "missing client token"), some .invalidRequest) := by
  simp [HandleRequest, hs, hb, hl, handleRequest, checkToken, ht, classifyErr,
    VErr.message]

/-- Witness for C2 (amended) at a concrete request. -/
theorem C2_empty_token_invalid_request_witness :
    HandleRequest env0 activeState reqEmptyTok =
      (some (Response.errorResponse "missing client token"), some .invalidRequest) :=
  C2_empty_token_invalid_request env0 activeState reqEmptyTok rfl rfl rfl rfl

/-- A threshold-2 unseal environment: barrier key length 1..32, share
overhead 1, master key [1, 2], and a combine that reconstructs the first
part (so combining a correct part with a wrong part yields a wrong key). -/
def e7 : UnsealEnv :=
  { keyMin := 1, keyMax := 32, shareOverhead := 1,
    sealConfig := .ok (some { secretShares := 3, secretThreshold := 2 }),
    masterKey := [1, 2], combine := fun ps => .ok ps.headI,
    haEnabled := false, postUnsealResult := none }

/-- A sealed core that has already accepted one key part [5]. -/
def s7 : CoreState :=
  { sealed := true, standby := true, barrierSealed := true, unlockParts := [[5]] }

/-- Claim C7: on a sealed initialized core, a duplicate key part leaves the
accepted parts unchanged and returns false; below the threshold the part is
appended, false is returned and the core stays sealed; at the threshold the
parts are cleared and barrier unsealing is attempted with the lone part
(T = 1) or the combined key. -/
theorem C7_unseal_accumulation (e : UnsealEnv) (s : CoreState)
    (key mk : List Nat) (config : SealConfig)
    (hmin : ¬ key.length < e.keyMin)
    (hmax : ¬ key.length > e.keyMax + e.shareOverhead)
    (hcfg : e.sealConfig = .ok (some config))
    (hsealed : s.sealed = true) :
    (key ∈ s.unlockParts → Unseal e s key = (s, false, none)) ∧
    (key ∉ s.unlockParts →
      s.unlockParts.length + 1 < config.secretThreshold →
      Unseal e s key =
        ({ s with unlockParts := s.unlockParts ++ [key] }, false, none) ∧
      (Unseal e s key).1.sealed = true) ∧
    (key ∉ s.unlockParts →
      ¬ s.unlockParts.length + 1 < config.secretThreshold →
      config.secretThreshold = 1 →
      Unseal e s key =
        unsealWith e { s with unlockParts := [] } (s.unlockParts ++ [key]).headI) ∧
    (key ∉ s.unlockParts →
      ¬ s.unlockParts.length + 1 < config.secretThreshold →
      config.secretThreshold ≠ 1 →
      e.combine (s.unlockParts ++ [key]) = .ok mk →
      Unseal e s key = unsealWith e { s with unlockParts := [] } mk) := by
  refine ⟨fun hdup => ?_, fun hdup hlt => ⟨?_, ?_⟩,
    fun hdup hge h1 => ?_, fun hdup hge h1 hcomb => ?_⟩
  · simp [Unseal, hmin, hmax, hcfg, hsealed, hdup]
  · simp [Unseal, hmin, hmax, hcfg, hsealed, hdup, hlt]
  · simp [Unseal, hmin, hmax, hcfg, hsealed, hdup, hlt]
  · simp [Unseal, hmin, hmax, hcfg, hsealed, hdup, hge, h1]
  · simp [Unseal, hmin, hmax, hcfg, hsealed, hdup, hge, h1, hcomb]

/-- Witness for C7 with the threshold-2 fixture and the fresh part [9]. -/
theorem C7_unseal_accumulation_witness :
    (([9] : List Nat) ∈ s7.unlockParts →
      Unseal e7 s7 [9] = (s7, false, none)) ∧
    (([9] : List Nat) ∉ s7.unlockParts →
      s7.unlockParts.length + 1 < 2 →
      Unseal e7 s7 [9] =
        ({ s7 with unlockParts := s7.unlockParts ++ [[9]] }, false, none) ∧
      (Unseal e7 s7 [9]).1.sealed = true) ∧
    (([9] : List Nat) ∉ s7.unlockParts →
      ¬ s7.unlockParts.length + 1 < 2 →
      (2 : Nat) = 1 →
      Unseal e7 s7 [9] =
        unsealWith e7 { s7 with unlockParts := [] } (s7.unlockParts ++ [[9]]).headI) ∧
    (([9] : List Nat) ∉ s7.unlockParts →
      ¬ s7.unlockParts.length + 1 < 2 →
      (2 : Nat) ≠ 1 →
      e7.combine (s7.unlockParts ++ [[9]]) = .ok [5] →
      Unseal e7 s7 [9] = unsealWith e7 { s7 with unlockParts := [] } [5]) :=
  C7_unseal_accumulation e7 s7 [9] [5] { secretShares := 3, secretThreshold := 2 }
    (by decide) (by decide) rfl rfl

/-- The same threshold-2 environment, used for the failed-unseal claim. -/
def e3 : UnsealEnv :=
  { keyMin := 1, keyMax := 32, shareOverhead := 1,
    sealConfig := .ok (some { secretShares := 3, secretThreshold := 2 }),
    masterKey := [1, 2], combine := fun ps => .ok ps.headI,
    haEnabled := false, postUnsealResult := none }

/-- A sealed core with one correct part [5] of a threshold-2 split. -/
def s3 : CoreState :=
  { sealed := true, standby := true, barrierSealed := true, unlockParts := [[5]] }

/-- Claim C3 counterexample: with threshold 2 and one accepted correct part,
submitting a wrong key makes Unseal fail with InvalidKey but clears the
accepted parts: SecretProgress drops from 1 to 0, so the failed attempt does
not leave the accepted unlock parts unchanged. -/
theorem C3_wrong_key_counterexample :
    (Unseal e3 s3 [9]).2.2 = some (.invalidKey "decryption failed") ∧
    SecretProgress (Unseal e3 s3 [9]).1 = 0 ∧
    SecretProgress s3 = 1 :=
  ⟨rfl, rfl, rfl⟩

/-- Claim C3 (amended): for a sealed core with threshold T, after T-1
distinct parts have been accepted, submitting a wrong key (valid length,
combining to a key other than the master key) makes Unseal fail with
InvalidKey and CLEARS the accepted unlock parts: SecretProgress is 0 after
the failed attempt, not its previous value. -/
theorem C3_wrong_key_clears_progress (e : UnsealEnv) (s : CoreState)
    (key mk : List Nat) (config : SealConfig)
    (hmin : ¬ key.length < e.keyMin)
    (hmax : ¬ key.length > e.keyMax + e.shareOverhead)
    (hcfg : e.sealConfig = .ok (some config))
    (hsealed : s.sealed = true)
    (hdup : key ∉ s.unlockParts)
    (hcount : s.unlockParts.length + 1 = config.secretThreshold)
    (hT : config.secretThreshold ≠ 1)
    (hcomb : e.combine (s.unlockParts ++ [key]) = .ok mk)
    (hwrong : mk ≠ e.masterKey) :
    Unseal e s key =
      ({ s with unlockParts := [] }, false,
        some (.invalidKey "decryption failed")) ∧
    SecretProgress (Unseal e s key).1 = 0 := by
  have hge : ¬ s.unlockParts.length + 1 < config.secretThreshold := by
    omega
  have h1 : Unseal e s key = unsealWith e { s with unlockParts := [] } mk := by
    simp [Unseal, hmin, hmax, hcfg, hsealed, hdup, hge, hT, hcomb]
  rw [h1]
  constructor
  · simp [unsealWith, barrierUnseal, hwrong]
  · simp [unsealWith, barrierUnseal, hwrong, SecretProgress]

/-- Witness for C3 (amended) with the concrete threshold-2 fixture. -/
theorem C3_wrong_key_clears_progress_witness :
    Unseal e3 s3 [9] =
      ({ s3 with unlockParts := [] }, false,
        some (.invalidKey "decryption failed")) ∧
    SecretProgress (Unseal e3 s3 [9]).1 = 0 :=
  C3_wrong_key_clears_progress e3 s3 [9] [5]
    { secretShares := 3, secretThreshold := 2 }
    (by decide) (by decide) rfl rfl (by decide) (by decide) (by decide) rfl
    (by decide)

/-- A setup environment in which every postUnseal step succeeds. -/
def allOkSetup : SetupEnv :=
  { loadMounts := .ok (), setupMounts := .ok (), startRollback := .ok (),
    setupPolicyStore := .ok (), loadCredentials := .ok (),
    setupCredentials := .ok (), setupExpiration := .ok (),
    loadAudits := .ok (), setupAudits := .ok () }

/-- Claim C1 (code bug): a failing setupPolicyStore, loadCredentials or
setupCredentials step makes postUnseal return nil (success), contrary to the
claim that every failing setup step surfaces its error; a failing
setupExpiration step, by contrast, is propagated as the source intends for
every step. -/
theorem C1_postUnseal_swallows_errors :
    postUnseal
      { allOkSetup with setupPolicyStore := .error "policy store setup failed" } =
      none ∧
    postUnseal
      { allOkSetup with loadCredentials := .error "credential load failed" } =
      none ∧
    postUnseal
      { allOkSetup with setupCredentials := .error "credential setup failed" } =
      none ∧
    postUnseal
      { allOkSetup with setupExpiration := .error "expiration setup failed" } =
      some "expiration setup failed" :=
  ⟨rfl, rfl, rfl, rfl⟩

/-- A standby-loop environment in which the node acquires the lock, becomes
active, and every step succeeds until leadership is lost. -/
def sbEnv : StandbyEnv :=
  { lockWithOk := true, acquired := true, advertiseOk := true,
    postUnsealResult := none, clearLeaderOk := true,
    preSealResult1 := none, preSealResult2 := none }

/-- An unsealed standby core state. -/
def sbState : CoreState :=
  { sealed := false, standby := true, barrierSealed := false, unlockParts := [] }

/-- Claim C4 (code bug): in a standby-loop iteration that becomes active and
then loses leadership, preSeal runs twice (once under the state lock before
releasing the advisory lock, and a second time in the final error check),
not exactly once per active-to-standby transition as the claim states. -/
theorem C4_double_preSeal_per_transition :
    (runStandbyIteration sbEnv sbState).1.count .ranPreSeal = 2 ∧
    (2 : Nat) ≠ 1 :=
  ⟨rfl, by decide⟩

/-- A leader environment for a standby node: HA enabled, the advisory lock
held by "uuid-1", whose advertised address is stored inside the barrier. -/
def le9 : LeaderEnv :=
  { haEnabled := true, advertiseAddr := "addr-self",
    lockWith := .ok (), lockValue := .ok (true, "uuid-1"),
    barrierGet := fun k =>
      if k = "core/leader/uuid-1" then .ok (some "addr-leader") else .ok none }

/-- Claim C9: Leader returns (true, advertise_addr) on an unsealed active
node; on an unsealed standby node it reads the advisory lock's value (the
leader uuid), fetches coreLeaderPrefix+uuid from the barrier, and returns
(false, that advertised address); and without an HA backend it fails with
HANotEnabled. -/
theorem C9_leader (e : LeaderEnv) (s : CoreState) (uuid addr : String) :
    (e.haEnabled = false → Leader e s = (false, "", some .haNotEnabled)) ∧
    (e.haEnabled = true → s.sealed = false → s.standby = false →
      Leader e s = (true, e.advertiseAddr, none)) ∧
    (e.haEnabled = true → s.sealed = false → s.standby = true →
      e.lockWith = .ok () → e.lockValue = .ok (true, uuid) →
      e.barrierGet (coreLeaderPath ++ uuid) = .ok (some addr) →
      Leader e s = (false, addr, none)) := by
  refine ⟨fun hha => ?_, fun hha hs hb => ?_,
    fun hha hs hb hlw hlv hget => ?_⟩
  · simp [Leader, hha]
  · simp [Leader, hha, hs, hb]
  · simp [Leader, hha, hs, hb, hlw, hlv, hget]

/-- Witness for C9: the standby node reports the leader's address read from
the barrier. -/
theorem C9_leader_witness :
    Leader le9 sbState = (false, "addr-leader", none) :=
  (C9_leader le9 sbState "uuid-1" "addr-leader").2.2 rfl rfl rfl rfl rfl rfl

/-- The synthesized auth produced by checkToken for the token "t1" of env0. -/
def authDev : Auth :=
  { clientToken := "t1", policies := ["dev"], metadata := [],
    displayName := "dev", lease := 0 }

/-- An auth block whose policies include root. -/
def rootAuth : Auth :=
  { clientToken := "", policies := ["root"], metadata := [],
    displayName := "root", lease := 0 }

/-- A token-backend request under auth/token/. -/
def tokReq : Request :=
  { operation := .write, path := "auth/token/create", clientToken := "t1",
    displayName := "" }

/-- A response carrying a root auth block. -/
def tokResp : Response :=
  { secret := none, auth := some rootAuth, errMsg := none }

/-- env0 with a router that answers every request with the root auth
response; auth registration succeeds. -/
def envReg : Env := { env0 with route := fun _ => (some tokResp, none) }

/-- The same environment, except that auth registration fails. -/
def envRegFail : Env :=
  { envReg with registerAuth := fun _ _ => .error "lease registration refused" }

/-- Claim C5 counterexample: for a root policy holder the Core still calls
the expiration manager's RegisterAuth: two environments that differ only in
RegisterAuth's outcome give different results for the same request whose
routed auth carries the root policy, and the failing one surfaces an
internal error, so a lease registration is attempted. -/
theorem C5_root_registration_counterexample :
    handleRequest envRegFail tokReq = (none, some .internalError) ∧
    handleRequest envReg tokReq ≠ handleRequest envRegFail tokReq := by
  exact ⟨rfl, by decide⟩

/-- Claim C5 (amended): on the authenticated path, a non-nil auth response is
valid only under auth/token/, and the Core registers the auth with the
expiration manager regardless of whether the token's policies include root;
the root policy only exempts the auth from the default-lease substitution.
For a root policy holder with in-bounds lease the auth is registered
unchanged: a registration failure surfaces as internal error, and a success
returns the response carrying that auth. -/
theorem C5_root_auth_registered (env : Env) (req0 : Request) (auth a : Auth)
    (em : Option String) (rerr : Option VErr) (m : String)
    (hct : checkToken env req0.operation req0.path req0.clientToken = .ok auth)
    (hlog : env.logRequest (some auth)
      { req0 with displayName := auth.displayName } = .ok ())
    (hroute : env.route { req0 with displayName := auth.displayName } =
      (some { secret := none, auth := some a, errMsg := em }, rerr))
    (hpath : strStarts req0.path "auth/token/" = true)
    (hroot : "root" ∈ a.policies)
    (hlease : ¬ a.lease > env.maxLeaseDuration) :
    (env.registerAuth req0.path a = .error m →
      handleRequest env req0 = (none, some .internalError)) ∧
    (env.registerAuth req0.path a = .ok () →
      env.logResponse (some auth) { req0 with displayName := auth.displayName }
        (some { secret := none, auth := some a, errMsg := em }) rerr = .ok () →
      handleRequest env req0 =
        (some { secret := none, auth := some a, errMsg := em }, rerr)) := by
  have hca : clampAuth env a = a := by
    simp [clampAuth, hroot, hlease]
  refine ⟨fun hreg => ?_, fun hreg hlogr => ?_⟩
  · simp [handleRequest, hct, hlog, hroute, processSecret, processAuth, hpath,
      hca, hreg]
  · simp [handleRequest, hct, hlog, hroute, processSecret, processAuth, hpath,
      hca, hreg, hlogr]

/-- Witness for C5 (amended): the root auth response of envReg is registered
and returned. -/
theorem C5_root_auth_registered_witness :
    (envReg.registerAuth tokReq.path rootAuth = .error "unused" →
      handleRequest envReg tokReq = (none, some .internalError)) ∧
    (envReg.registerAuth tokReq.path rootAuth = .ok () →
      envReg.logResponse (some authDev)
        { tokReq with displayName := authDev.displayName }
        (some { secret := none, auth := some rootAuth, errMsg := none }) none =
        .ok () →
      handleRequest envReg tokReq =
        (some { secret := none, auth := some rootAuth, errMsg := none }, none)) :=
  C5_root_auth_registered envReg tokReq authDev rootAuth none none "unused"
    rfl rfl rfl (by decide) (by decide) (by decide)

/-- A secret with no lease set. -/
def secZero : Secret := { lease := 0, leaseID := "" }

/-- A response carrying secZero and no auth block. -/
def secResp : Response := { secret := some secZero, auth := none, errMsg := none }

/-- env0 with a router that answers every request with secResp. -/
def env6 : Env := { env0 with route := fun _ => (some secResp, none) }

/-- Claim C6: for every routed response with a non-nil secret on the
authenticated path, a zero lease duration is replaced by the default lease
duration, a lease greater than the maximum is clamped to the maximum, the
(clamped) lease is registered with the expiration manager, and the returned
response carries the registered lease id. -/
theorem C6_secret_lease_clamp (env : Env) (req0 : Request) (auth : Auth)
    (s : Secret) (em : Option String) (rerr : Option VErr) (lid : String)
    (hct : checkToken env req0.operation req0.path req0.clientToken = .ok auth)
    (hlog : env.logRequest (some auth)
      { req0 with displayName := auth.displayName } = .ok ())
    (hroute : env.route { req0 with displayName := auth.displayName } =
      (some { secret := some s, auth := none, errMsg := em }, rerr))
    (hreg : env.registerLease { req0 with displayName := auth.displayName }
      { secret := some (clampSecret env s), auth := none, errMsg := em } =
      .ok lid)
    (hlogr : env.logResponse (some auth)
      { req0 with displayName := auth.displayName }
      (some { secret := some { clampSecret env s with leaseID := lid },
              auth := none, errMsg := em }) rerr = .ok ()) :
    handleRequest env req0 =
      (some { secret := some { clampSecret env s with leaseID := lid },
              auth := none, errMsg := em }, rerr) ∧
    (s.lease = 0 → env.defaultLeaseDuration ≤ env.maxLeaseDuration →
      (clampSecret env s).lease = env.defaultLeaseDuration) ∧
    (s.lease > env.maxLeaseDuration →
      (clampSecret env s).lease = env.maxLeaseDuration) := by
  refine ⟨?_, fun h0 hdm => ?_, fun hgt => ?_⟩
  · simp [handleRequest, hct, hlog, hroute, processSecret, processAuth, hreg,
      hlogr]
  · have hnd : ¬ env.defaultLeaseDuration > env.maxLeaseDuration := by omega
    simp [clampSecret, h0, hnd]
  · have hn0 : ¬ s.lease = 0 := by omega
    simp [clampSecret, hn0, hgt]

/-- Witness for C6: the zero-lease secret of env6 comes back with the default
lease 100 and the registered lease id. -/
theorem C6_secret_lease_clamp_witness :
    handleRequest env6 req0 =
      (some { secret := some { clampSecret env6 secZero with leaseID := "lease-1" },
              auth := none, errMsg := none }, none) ∧
    (secZero.lease = 0 → env6.defaultLeaseDuration ≤ env6.maxLeaseDuration →
      (clampSecret env6 secZero).lease = env6.defaultLeaseDuration) ∧
    (secZero.lease > env6.maxLeaseDuration →
      (clampSecret env6 secZero).lease = env6.maxLeaseDuration) :=
  C6_secret_lease_clamp env6 req0 authDev secZero none none "lease-1"
    rfl rfl rfl rfl rfl

end Vault
